import Mathlib

/-
Verification of the bdlt::Datetime component (bdlt_datetime.h): a
value-semantic date+time type with a reserved sentinel value
"0001/01/01_24:00:00.000", carry-propagating arithmetic, lexicographic
comparison and a versioned externalization protocol.

The Datetime member functions and free operators are translated directly
from the inline definitions in bdlt_datetime.h.  The collaborator types
bdlt::Date, bdlt::Time and bdlt::DatetimeInterval are not part of the
source tree; they are modelled from the specification of their contracts:
a Date is its serial day number in the proleptic Gregorian calendar
(1 = 0001/01/01, 3652059 = 9999/12/31), a Time is its millisecond offset
from midnight (with 86400000 representing the reserved value 24:00:00.000),
and a DatetimeInterval is its total signed length in milliseconds.
-/

/- Unit ratios, from bdlt_timeunitratio (k_MS_PER_D_32 and friends). -/

def msPerDay : Int := 86400000

def msPerHour : Int := 3600000

def msPerMinute : Int := 60000

def msPerSecond : Int := 1000

/-- Millisecond representation of the reserved time value 24:00:00.000,
the default-constructed bdlt::Time. -/
def time24 : Int := 86400000

/-- Serial day number of 9999/12/31, the last valid bdlt::Date. -/
def maxSerial : Int := 3652059

/-- Modelled from the spec: bdlt::Date is external to the source tree; the
proleptic Gregorian leap-year rule for years in [1 .. 9999]. -/
def isLeapYear (y : Int) : Bool :=
  y % 4 == 0 && (y % 100 != 0 || y % 400 == 0)

/-- Modelled from the spec: number of days of month m of year y in the
proleptic Gregorian calendar. -/
def daysInMonth (y m : Int) : Int :=
  if m = 2 then (if isLeapYear y then 29 else 28)
  else if m = 4 ∨ m = 6 ∨ m = 9 ∨ m = 11 then 30
  else 31

/-- Modelled from the spec: bdlt::Date validity on a (year, month, day)
triple -- years in [1 .. 9999], months in [1 .. 12], days valid for the
month. -/
def Date.isValidYearMonthDay (y m d : Int) : Bool :=
  decide (1 ≤ y ∧ y ≤ 9999 ∧ 1 ≤ m ∧ m ≤ 12 ∧ 1 ≤ d ∧ d ≤ daysInMonth y m)

/-- Modelled from the spec: bdlt::Date validity on a (year, dayOfYear)
pair. -/
def Date.isValidYearDay (y doy : Int) : Bool :=
  decide (1 ≤ y ∧ y ≤ 9999 ∧ 1 ≤ doy ∧ doy ≤ (if isLeapYear y then 366 else 365))

/-- Days strictly before month m in a year (0 for January, 31 for
February, ...), without the leap correction. -/
def monthOffset (m : Int) : Int :=
  if m ≤ 1 then 0 else if m = 2 then 31 else if m = 3 then 59
  else if m = 4 then 90 else if m = 5 then 120 else if m = 6 then 151
  else if m = 7 then 181 else if m = 8 then 212 else if m = 9 then 243
  else if m = 10 then 273 else if m = 11 then 304 else 334

/-- Days of year y strictly before month m. -/
def daysBeforeMonth (y m : Int) : Int :=
  monthOffset m + (if 3 ≤ m ∧ isLeapYear y then 1 else 0)

/-- Days strictly before year y, counted from 0001/01/01 (so the value is
0 for year 1). -/
def daysBeforeYear (y : Int) : Int :=
  365 * (y - 1) + (y - 1) / 4 - (y - 1) / 100 + (y - 1) / 400

/-- Modelled from the spec: the serial day number of a (year, month, day)
date, with 0001/01/01 mapped to 1.  This is the value of
Date::setYearMonthDay and of the Date constructor. -/
def ymdToSerial (y m d : Int) : Int :=
  daysBeforeYear y + daysBeforeMonth y m + d

/-- Modelled from the spec: the serial day number of a (year, dayOfYear)
date; the value of Date::setYearDay. -/
def ydToSerial (y doy : Int) : Int :=
  daysBeforeYear y + doy

/- Time collaborator, modelled from the spec: value is the millisecond
offset from midnight, in [0 .. 86399999], plus the reserved value 86400000
(24:00:00.000). -/

/-- Millisecond offset of a Time built from (hour, minute, second,
millisecond) fields; Time(24, 0, 0, 0) yields the reserved value. -/
def timeRep (h mi s ms : Int) : Int :=
  h * msPerHour + mi * msPerMinute + s * msPerSecond + ms

/-- Modelled from the spec: bdlt::Time validity -- hour in [0 .. 23] with
the usual field ranges, or exactly the reserved value 24:00:00.000. -/
def Time.isValid (h mi s ms : Int) : Bool :=
  decide ((0 ≤ h ∧ h ≤ 23 ∧ 0 ≤ mi ∧ mi ≤ 59 ∧ 0 ≤ s ∧ s ≤ 59 ∧
           0 ≤ ms ∧ ms ≤ 999) ∨
          (h = 24 ∧ mi = 0 ∧ s = 0 ∧ ms = 0))

/-- The reserved value 24:00:00.000 behaves as 00:00:00.000 under the Time
manipulators: each of them first replaces 24:00 by 00:00. -/
def timeNorm (t : Int) : Int :=
  if t = time24 then 0 else t

/-- Modelled from the spec: the single carry primitive of bdlt::Time --
add a signed millisecond delta to the time-of-day (treating 24:00 as
00:00), wrap the time into [0 .. 86399999], and return the signed whole-day
carry together with the wrapped time. -/
def Time.addInterval (t delta : Int) : Int × Int :=
  ((timeNorm t + delta) / msPerDay, (timeNorm t + delta) % msPerDay)

/-- Modelled from the spec: Time::add(Milliseconds) is the same carry
primitive as Time::addInterval. -/
def Time.addMilliseconds (t delta : Int) : Int × Int :=
  Time.addInterval t delta

/-- Modelled from the spec: Time::setHour -- if the new hour is 24 the
other fields are forced to 0 (yielding the reserved value); otherwise a
current reserved value is first treated as 00:00. -/
def Time.setHour (t h : Int) : Int :=
  if h = 24 then time24 else h * msPerHour + timeNorm t % msPerHour

/-- Modelled from the spec: Time::setMinute; a current reserved value has
its hour set to 0 first. -/
def Time.setMinute (t mi : Int) : Int :=
  (timeNorm t / msPerHour) * msPerHour + mi * msPerMinute + timeNorm t % msPerMinute

/-- Modelled from the spec: Time::setSecond; a current reserved value has
its hour set to 0 first. -/
def Time.setSecond (t s : Int) : Int :=
  (timeNorm t / msPerMinute) * msPerMinute + s * msPerSecond + timeNorm t % msPerSecond

/-- Modelled from the spec: Time::setMillisecond; a current reserved value
has its hour set to 0 first. -/
def Time.setMillisecond (t ms : Int) : Int :=
  (timeNorm t / msPerSecond) * msPerSecond + ms

/- BDEX streams, modelled from the spec: only the framing of the version-1
protocol is in scope; a stream is a sequence of sub-value fields plus the
sticky validity flag.  Reading past the end of the data, or reading an
out-of-range sub-value, invalidates the stream. -/

structure BStream where
  data : List Int
  valid : Bool
deriving DecidableEq, Repr

def BStream.invalidate (s : BStream) : BStream := ⟨s.data, false⟩

/-- Modelled from the spec: the version-1 Date sub-stream writer. -/
def Date.bdexStreamOut (d : Int) (s : BStream) : BStream :=
  if s.valid then ⟨s.data ++ [d], true⟩ else s

/-- Modelled from the spec: the version-1 Date sub-stream reader; on a
failed read the target keeps its default value 0001/01/01 and the stream is
invalidated. -/
def Date.bdexStreamIn (s : BStream) : Int × BStream :=
  if s.valid then
    match s.data with
    | [] => (1, ⟨[], false⟩)
    | v :: rest => if 1 ≤ v ∧ v ≤ maxSerial then (v, ⟨rest, true⟩) else (1, ⟨rest, false⟩)
  else (1, s)

/-- Modelled from the spec: the version-1 Time sub-stream writer. -/
def Time.bdexStreamOut (t : Int) (s : BStream) : BStream :=
  if s.valid then ⟨s.data ++ [t], true⟩ else s

/-- Modelled from the spec: the version-1 Time sub-stream reader; on a
failed read the target keeps its default value 24:00:00.000 and the stream
is invalidated. -/
def Time.bdexStreamIn (s : BStream) : Int × BStream :=
  if s.valid then
    match s.data with
    | [] => (time24, ⟨[], false⟩)
    | v :: rest => if 0 ≤ v ∧ v ≤ time24 then (v, ⟨rest, true⟩) else (time24, ⟨rest, false⟩)
  else (time24, s)

/- The Datetime component itself, translated from bdlt_datetime.h. -/

structure Datetime where
  d_date : Int
  d_time : Int
deriving DecidableEq, Repr

/-- Datetime::setTimeToZeroIfDefault: set the time part to 00:00:00.000 if
this object has the default constructed value, and leave it unchanged
otherwise. -/
def Datetime.setTimeToZeroIfDefault (x : Datetime) : Datetime :=
  if x.d_time = time24 ∧ x.d_date = 1 then ⟨x.d_date, 0⟩ else x

/-- Datetime::isValid on seven numeric fields. -/
def Datetime.isValid (year month day hour minute second millisecond : Int) : Bool :=
  let partsValid := Date.isValidYearMonthDay year month day &&
                    Time.isValid hour minute second millisecond
  if !partsValid then false
  else if hour == 24 && !(year == 1 && month == 1 && day == 1) then false
  else true

/-- Datetime::isValid on a (Date, Time) pair. -/
def Datetime.isValidDT (date time : Int) : Bool :=
  if time == time24 && date != 1 then false else true

/-- The default-constructed Datetime: "0001/01/01_24:00:00.000". -/
def Datetime.mkDefault : Datetime := ⟨1, time24⟩

/-- Datetime(const Date&): the given date at 00:00:00.000. -/
def Datetime.fromDate (d : Int) : Datetime := ⟨d, 0⟩

/-- Datetime(const Date&, const Time&). -/
def Datetime.fromDateAndTime (d t : Int) : Datetime := ⟨d, t⟩

/-- Datetime(year, month, day, hour, minute, second, millisecond). -/
def Datetime.fromFields (y mo d h mi s ms : Int) : Datetime :=
  ⟨ymdToSerial y mo d, timeRep h mi s ms⟩

/-- Datetime::setDatetime: replace both parts. -/
def Datetime.setDatetime (x : Datetime) (y mo d h mi s ms : Int) : Datetime :=
  ⟨ymdToSerial y mo d, timeRep h mi s ms⟩

/-- Datetime::setDatetimeIfValid: returns the status (0 on success, -1 on
failure) together with the resulting value. -/
def Datetime.setDatetimeIfValid (x : Datetime) (y mo d h mi s ms : Int) : Int × Datetime :=
  if Datetime.isValid y mo d h mi s ms then (0, x.setDatetime y mo d h mi s ms)
  else (-1, x)

/-- Datetime::setDate. -/
def Datetime.setDate (x : Datetime) (d : Int) : Datetime :=
  let x0 := x.setTimeToZeroIfDefault
  ⟨d, x0.d_time⟩

/-- Datetime::setYearDay. -/
def Datetime.setYearDay (x : Datetime) (y doy : Int) : Datetime :=
  let x0 := x.setTimeToZeroIfDefault
  ⟨ydToSerial y doy, x0.d_time⟩

/-- Datetime::setYearMonthDay. -/
def Datetime.setYearMonthDay (x : Datetime) (y mo d : Int) : Datetime :=
  let x0 := x.setTimeToZeroIfDefault
  ⟨ymdToSerial y mo d, x0.d_time⟩

/-- Datetime::setTime(const Time&). -/
def Datetime.setTimePart (x : Datetime) (t : Int) : Datetime :=
  ⟨x.d_date, t⟩

/-- Datetime::setTime(hour, minute, second, millisecond). -/
def Datetime.setTimeFields (x : Datetime) (h mi s ms : Int) : Datetime :=
  ⟨x.d_date, timeRep h mi s ms⟩

/-- Datetime::setHour, delegating to Time::setHour. -/
def Datetime.setHour (x : Datetime) (h : Int) : Datetime :=
  ⟨x.d_date, Time.setHour x.d_time h⟩

/-- Datetime::setMinute, delegating to Time::setMinute. -/
def Datetime.setMinute (x : Datetime) (mi : Int) : Datetime :=
  ⟨x.d_date, Time.setMinute x.d_time mi⟩

/-- Datetime::setSecond, delegating to Time::setSecond. -/
def Datetime.setSecond (x : Datetime) (s : Int) : Datetime :=
  ⟨x.d_date, Time.setSecond x.d_time s⟩

/-- Datetime::setMillisecond, delegating to Time::setMillisecond. -/
def Datetime.setMillisecond (x : Datetime) (ms : Int) : Datetime :=
  ⟨x.d_date, Time.setMillisecond x.d_time ms⟩

/-- Datetime::addDays. -/
def Datetime.addDays (x : Datetime) (days : Int) : Datetime :=
  let x0 := x.setTimeToZeroIfDefault
  ⟨x0.d_date + days, x0.d_time⟩

/-- Datetime::operator+= against a DatetimeInterval of the given total
millisecond length: d_date += d_time.addInterval(rhs).  The free operators
Datetime + DatetimeInterval and DatetimeInterval + Datetime are this same
computation on a copy. -/
def Datetime.addInterval (x : Datetime) (delta : Int) : Datetime :=
  let p := Time.addInterval x.d_time delta
  ⟨x.d_date + p.1, p.2⟩

/-- Datetime::operator-= against a DatetimeInterval:
d_date += d_time.addInterval(-rhs). -/
def Datetime.subInterval (x : Datetime) (delta : Int) : Datetime :=
  x.addInterval (-delta)

/-- Datetime::addTime: the four arguments are combined into a single
DatetimeInterval and added via the interval path. -/
def Datetime.addTime (x : Datetime) (hours minutes seconds milliseconds : Int) : Datetime :=
  x.addInterval (hours * msPerHour + minutes * msPerMinute +
                 seconds * msPerSecond + milliseconds)

/-- The decomposition used by the four scalar adders: wholeDays is
totalMsec / k_MILLISECONDS_PER_DAY and normMsec is
totalMsec % k_MILLISECONDS_PER_DAY, with the C++ truncating division and
remainder. -/
def msDecompose (delta : Int) : Int × Int :=
  (Int.tdiv delta msPerDay, Int.tmod delta msPerDay)

/-- Datetime::addHours: totalMsec = hours * k_MILLISECONDS_PER_HOUR; then
numDays = wholeDays + d_time.addMilliseconds(normMsec); d_date += numDays. -/
def Datetime.addHours (x : Datetime) (hours : Int) : Datetime :=
  let q := msDecompose (hours * msPerHour)
  let p := Time.addMilliseconds x.d_time q.2
  ⟨x.d_date + (q.1 + p.1), p.2⟩

/-- Datetime::addMinutes. -/
def Datetime.addMinutes (x : Datetime) (minutes : Int) : Datetime :=
  let q := msDecompose (minutes * msPerMinute)
  let p := Time.addMilliseconds x.d_time q.2
  ⟨x.d_date + (q.1 + p.1), p.2⟩

/-- Datetime::addSeconds. -/
def Datetime.addSeconds (x : Datetime) (seconds : Int) : Datetime :=
  let q := msDecompose (seconds * msPerSecond)
  let p := Time.addMilliseconds x.d_time q.2
  ⟨x.d_date + (q.1 + p.1), p.2⟩

/-- Datetime::addMilliseconds. -/
def Datetime.addMilliseconds (x : Datetime) (milliseconds : Int) : Datetime :=
  let q := msDecompose milliseconds
  let p := Time.addMilliseconds x.d_time q.2
  ⟨x.d_date + (q.1 + p.1), p.2⟩

/-- operator-(Datetime, Datetime): the whole-day date difference plus the
signed time-of-day difference, as one DatetimeInterval (in total
milliseconds); a 24:00 time part on either side is treated as 00:00. -/
def Datetime.sub (lhs rhs : Datetime) : Int :=
  (lhs.d_date - rhs.d_date) * msPerDay + (timeNorm lhs.d_time - timeNorm rhs.d_time)

/-- operator+(Datetime, DatetimeInterval): a copy of lhs with += rhs. -/
def dtPlusInterval (lhs : Datetime) (rhs : Int) : Datetime :=
  lhs.addInterval rhs

/-- operator+(DatetimeInterval, Datetime): a copy of rhs with += lhs. -/
def intervalPlusDt (lhs : Int) (rhs : Datetime) : Datetime :=
  rhs.addInterval lhs

/-- operator==(Datetime, Datetime). -/
def Datetime.eqB (lhs rhs : Datetime) : Bool :=
  lhs.d_date == rhs.d_date && lhs.d_time == rhs.d_time

/-- operator<(Datetime, Datetime). -/
def Datetime.ltB (lhs rhs : Datetime) : Bool :=
  decide (lhs.d_date < rhs.d_date) ||
  (lhs.d_date == rhs.d_date && decide (lhs.d_time < rhs.d_time))

/-- operator<=(Datetime, Datetime). -/
def Datetime.leB (lhs rhs : Datetime) : Bool :=
  decide (lhs.d_date < rhs.d_date) ||
  (lhs.d_date == rhs.d_date && decide (lhs.d_time ≤ rhs.d_time))

/-- operator>(Datetime, Datetime). -/
def Datetime.gtB (lhs rhs : Datetime) : Bool :=
  decide (lhs.d_date > rhs.d_date) ||
  (lhs.d_date == rhs.d_date && decide (lhs.d_time > rhs.d_time))

/-- operator>=(Datetime, Datetime). -/
def Datetime.geB (lhs rhs : Datetime) : Bool :=
  decide (lhs.d_date > rhs.d_date) ||
  (lhs.d_date == rhs.d_date && decide (lhs.d_time ≥ rhs.d_time))

/-- Datetime::bdexStreamOut: version 1 writes the date sub-stream, then
the time sub-stream; an unsupported version invalidates the stream; no
version tag is written. -/
def Datetime.bdexStreamOut (x : Datetime) (version : Int) (s : BStream) : BStream :=
  if s.valid then
    if version = 1 then Time.bdexStreamOut x.d_time (Date.bdexStreamOut x.d_date s)
    else s.invalidate
  else s

/-- Datetime::bdexStreamIn: version 1 reads both sub-values into
default-constructed temporaries, and commits them only if the stream is
still valid after both reads. -/
def Datetime.bdexStreamIn (x : Datetime) (version : Int) (s : BStream) : Datetime × BStream :=
  if s.valid then
    if version = 1 then
      let pd := Date.bdexStreamIn s
      let pt := Time.bdexStreamIn pd.2
      if pt.2.valid then (⟨pd.1, pt.1⟩, pt.2) else (x, pt.2.invalidate)
    else (x, s.invalidate)
  else (x, s)

/- Validity predicates on the model representation. -/

/-- A serial day number within the valid bdlt::Date range. -/
def dateOk (d : Int) : Prop := 1 ≤ d ∧ d ≤ maxSerial

/-- A millisecond offset within the valid bdlt::Time range, the reserved
value included. -/
def timeOk (t : Int) : Prop := 0 ≤ t ∧ t ≤ time24

/-- Both parts independently in range. -/
def Datetime.wfRep (x : Datetime) : Prop := dateOk x.d_date ∧ timeOk x.d_time

/-- The cross-field invariant I1: both parts in range, and the reserved
time 24:00:00.000 only together with the default date 0001/01/01. -/
def Datetime.Inv (x : Datetime) : Prop :=
  x.wfRep ∧ (x.d_time = time24 → x.d_date = 1)

instance (d : Int) : Decidable (dateOk d) := by
  unfold dateOk
  infer_instance

instance (t : Int) : Decidable (timeOk t) := by
  unfold timeOk
  infer_instance

instance (x : Datetime) : Decidable x.wfRep := by
  unfold Datetime.wfRep
  infer_instance

instance (x : Datetime) : Decidable x.Inv := by
  unfold Datetime.Inv
  infer_instance

/- Helper lemmas. -/

lemma timeNorm_bounds {t : Int} (h : timeOk t) :
    0 ≤ timeNorm t ∧ timeNorm t < msPerDay := by
  simp only [timeNorm, timeOk, time24, msPerDay] at *
  split <;> omega

lemma tmod_neg_arg (z b : Int) : Int.tmod (-z) b = -Int.tmod z b := by
  rw [Int.tmod_def, Int.tmod_def, Int.neg_tdiv]
  ring

lemma tmod_msPerDay_bounds (a : Int) :
    -msPerDay < Int.tmod a msPerDay ∧ Int.tmod a msPerDay < msPerDay ∧
    (0 ≤ a → 0 ≤ Int.tmod a msPerDay) ∧ (a ≤ 0 → Int.tmod a msPerDay ≤ 0) := by
  have hpos : (0 : Int) < msPerDay := by norm_num [msPerDay]
  have hub := Int.tmod_lt_of_pos a hpos
  have hneg : Int.tmod a msPerDay = -Int.tmod (-a) msPerDay := by
    rw [← tmod_neg_arg, neg_neg]
  have hub2 := Int.tmod_lt_of_pos (-a) hpos
  constructor
  · rcases le_or_lt 0 a with hn | hn
    · have := Int.tmod_nonneg msPerDay hn
      omega
    · omega
  refine ⟨hub, fun hn => Int.tmod_nonneg msPerDay hn, fun hn => ?_⟩
  have := Int.tmod_nonneg msPerDay (by omega : (0:Int) ≤ -a)
  omega

lemma decompose_recombine (dd u delta : Int) :
    (⟨dd + ((msDecompose delta).1 + (u + (msDecompose delta).2) / msPerDay),
      (u + (msDecompose delta).2) % msPerDay⟩ : Datetime) =
    ⟨dd + (u + delta) / msPerDay, (u + delta) % msPerDay⟩ := by
  have h := Int.tdiv_add_tmod delta msPerDay
  simp only [msDecompose, msPerDay] at *
  rw [Datetime.mk.injEq]
  constructor <;> omega

lemma addHours_eq_addInterval (x : Datetime) (n : Int) :
    x.addHours n = x.addInterval (n * msPerHour) := by
  simp only [Datetime.addHours, Datetime.addInterval, Time.addMilliseconds, Time.addInterval]
  exact decompose_recombine x.d_date (timeNorm x.d_time) (n * msPerHour)

lemma addMinutes_eq_addInterval (x : Datetime) (n : Int) :
    x.addMinutes n = x.addInterval (n * msPerMinute) := by
  simp only [Datetime.addMinutes, Datetime.addInterval, Time.addMilliseconds, Time.addInterval]
  exact decompose_recombine x.d_date (timeNorm x.d_time) (n * msPerMinute)

lemma addSeconds_eq_addInterval (x : Datetime) (n : Int) :
    x.addSeconds n = x.addInterval (n * msPerSecond) := by
  simp only [Datetime.addSeconds, Datetime.addInterval, Time.addMilliseconds, Time.addInterval]
  exact decompose_recombine x.d_date (timeNorm x.d_time) (n * msPerSecond)

lemma addMilliseconds_eq_addInterval (x : Datetime) (n : Int) :
    x.addMilliseconds n = x.addInterval n := by
  simp only [Datetime.addMilliseconds, Datetime.addInterval, Time.addMilliseconds,
             Time.addInterval]
  exact decompose_recombine x.d_date (timeNorm x.d_time) n

lemma nonSentinel_time_ne {x : Datetime} (hInv : x.Inv) (hns : x ≠ Datetime.mkDefault) :
    x.d_time ≠ time24 := by
  intro ht
  apply hns
  obtain ⟨dd, tt⟩ := x
  obtain ⟨_, himp⟩ := hInv
  simp only at ht
  have : dd = 1 := himp ht
  simp [Datetime.mkDefault, this, ht]

lemma norm_eq_self_of_nonSentinel {x : Datetime} (hInv : x.Inv) (hns : x ≠ Datetime.mkDefault) :
    x.setTimeToZeroIfDefault = x := by
  have := nonSentinel_time_ne hInv hns
  unfold Datetime.setTimeToZeroIfDefault
  split
  · exact absurd (by tauto) this
  · rfl

lemma daysBeforeYear_bounds {y : Int} (h1 : 1 ≤ y) (h2 : y ≤ 9999) :
    0 ≤ daysBeforeYear y ∧
    daysBeforeYear y + 365 + (if isLeapYear y then 1 else 0) ≤ 3652059 := by
  unfold daysBeforeYear
  by_cases hL : isLeapYear y
  · have h4 : y % 4 = 0 := by
      simp only [isLeapYear, Bool.and_eq_true, beq_iff_eq] at hL
      exact hL.1
    simp [hL]
    omega
  · simp [hL]
    omega

lemma month_day_bound {y m d : Int} (hm1 : 1 ≤ m) (hm2 : m ≤ 12) (hd1 : 1 ≤ d)
    (hd2 : d ≤ daysInMonth y m) :
    1 ≤ daysBeforeMonth y m + d ∧
    daysBeforeMonth y m + d ≤ 365 + (if isLeapYear y then 1 else 0) := by
  unfold daysBeforeMonth monthOffset
  unfold daysInMonth at hd2
  by_cases hL : isLeapYear y <;>
    interval_cases m <;>
    simp_all <;>
    omega

lemma ymdToSerial_bounds {y m d : Int} (h : Date.isValidYearMonthDay y m d = true) :
    1 ≤ ymdToSerial y m d ∧ ymdToSerial y m d ≤ maxSerial := by
  simp only [Date.isValidYearMonthDay, decide_eq_true_eq] at h
  obtain ⟨hy1, hy2, hm1, hm2, hd1, hd2⟩ := h
  have hY := daysBeforeYear_bounds hy1 hy2
  have hM := month_day_bound hm1 hm2 hd1 hd2
  unfold ymdToSerial maxSerial
  omega

lemma ydToSerial_bounds {y doy : Int} (h : Date.isValidYearDay y doy = true) :
    1 ≤ ydToSerial y doy ∧ ydToSerial y doy ≤ maxSerial := by
  simp only [Date.isValidYearDay, decide_eq_true_eq] at h
  obtain ⟨hy1, hy2, hd1, hd2⟩ := h
  have hY := daysBeforeYear_bounds hy1 hy2
  unfold ydToSerial maxSerial
  by_cases hL : isLeapYear y <;> simp [hL] at hd2 hY <;> omega

lemma timeRep_ok {h mi s ms : Int} (hv : Time.isValid h mi s ms = true) :
    0 ≤ timeRep h mi s ms ∧ timeRep h mi s ms ≤ time24 ∧
    (timeRep h mi s ms = time24 → h = 24) := by
  simp only [Time.isValid, decide_eq_true_eq] at hv
  unfold timeRep msPerHour msPerMinute msPerSecond time24
  rcases hv with ⟨h1, h2, h3, h4, h5, h6, h7, h8⟩ | ⟨h1, h2, h3, h4⟩ <;> omega

lemma Inv_mk_of_lt {dd tt : Int} (hd : dateOk dd) (h0 : 0 ≤ tt) (hlt : tt < time24) :
    (Datetime.mk dd tt).Inv :=
  ⟨⟨hd, h0, le_of_lt hlt⟩, fun h => absurd h (ne_of_lt hlt)⟩

lemma norm_preserves {x : Datetime} (hInv : x.Inv) :
    (x.setTimeToZeroIfDefault).d_date = x.d_date ∧
    0 ≤ (x.setTimeToZeroIfDefault).d_time ∧
    (x.setTimeToZeroIfDefault).d_time < time24 := by
  obtain ⟨⟨hd, ht⟩, himp⟩ := hInv
  unfold Datetime.setTimeToZeroIfDefault
  split
  · exact ⟨rfl, le_refl 0, by norm_num [time24]⟩
  · next hcond =>
    have hne : x.d_time ≠ time24 := fun he => hcond ⟨he, himp he⟩
    unfold timeOk at ht
    exact ⟨rfl, ht.1, by omega⟩

lemma addInterval_time_ok (t delta : Int) :
    0 ≤ (Time.addInterval t delta).2 ∧ (Time.addInterval t delta).2 < time24 := by
  unfold Time.addInterval
  have h1 := Int.emod_nonneg (timeNorm t + delta) (by norm_num [msPerDay] : (msPerDay:Int) ≠ 0)
  have h2 := Int.emod_lt_of_pos (timeNorm t + delta) (by norm_num [msPerDay] : (0:Int) < msPerDay)
  simp only [msPerDay, time24] at *
  omega

lemma addInterval_whole_days {x : Datetime} (hInv : x.Inv) (hns : x ≠ Datetime.mkDefault)
    (k : Int) : x.addInterval (k * msPerDay) = ⟨x.d_date + k, x.d_time⟩ := by
  have htn : timeNorm x.d_time = x.d_time := by
    unfold timeNorm
    rw [if_neg (nonSentinel_time_ne hInv hns)]
  have hb := timeNorm_bounds hInv.1.2
  rw [htn] at hb
  unfold Datetime.addInterval Time.addInterval
  rw [htn, Datetime.mk.injEq]
  simp only [msPerDay] at *
  constructor <;> omega

/-- Claim C2: for every non-sentinel Datetime and every scalar amount
whose results stay in the valid date range, each scalar adder (addHours,
addMinutes, addSeconds, addMilliseconds) yields exactly the value of the
equivalent combined-interval path (addTime, the operator+= computation);
in particular adding 24 hours equals adding 1 day, and adding 240 hours
equals adding 10 days. -/
theorem datetime_c2_scalar_vs_interval (x : Datetime) (n : Int)
    (hInv : x.Inv) (hns : x ≠ Datetime.mkDefault)
    (hr1 : dateOk (x.addTime n 0 0 0).d_date)
    (hr2 : dateOk (x.addTime 0 n 0 0).d_date)
    (hr3 : dateOk (x.addTime 0 0 n 0).d_date)
    (hr4 : dateOk (x.addTime 0 0 0 n).d_date)
    (hr5 : dateOk (x.addDays 1).d_date)
    (hr6 : dateOk (x.addDays 10).d_date) :
    x.addHours n = x.addTime n 0 0 0 ∧
    x.addMinutes n = x.addTime 0 n 0 0 ∧
    x.addSeconds n = x.addTime 0 0 n 0 ∧
    x.addMilliseconds n = x.addTime 0 0 0 n ∧
    x.addHours 24 = x.addDays 1 ∧
    x.addHours 240 = x.addDays 10 := by
  have hnorm := norm_eq_self_of_nonSentinel hInv hns
  have hd1 : x.addDays 1 = ⟨x.d_date + 1, x.d_time⟩ := by
    unfold Datetime.addDays
    rw [hnorm]
  have hd10 : x.addDays 10 = ⟨x.d_date + 10, x.d_time⟩ := by
    unfold Datetime.addDays
    rw [hnorm]
  have e1 : x.addTime n 0 0 0 = x.addInterval (n * msPerHour) := by
    unfold Datetime.addTime
    norm_num
  have e2 : x.addTime 0 n 0 0 = x.addInterval (n * msPerMinute) := by
    unfold Datetime.addTime
    norm_num
  have e3 : x.addTime 0 0 n 0 = x.addInterval (n * msPerSecond) := by
    unfold Datetime.addTime
    norm_num
  have e4 : x.addTime 0 0 0 n = x.addInterval n := by
    unfold Datetime.addTime
    norm_num
  refine ⟨e1 ▸ addHours_eq_addInterval x n,
          e2 ▸ addMinutes_eq_addInterval x n,
          e3 ▸ addSeconds_eq_addInterval x n,
          e4 ▸ addMilliseconds_eq_addInterval x n, ?_, ?_⟩
  · rw [addHours_eq_addInterval, hd1,
        show (24 : Int) * msPerHour = 1 * msPerDay from by norm_num [msPerHour, msPerDay],
        addInterval_whole_days hInv hns 1]
  · rw [addHours_eq_addInterval, hd10,
        show (240 : Int) * msPerHour = 10 * msPerDay from by norm_num [msPerHour, msPerDay],
        addInterval_whole_days hInv hns 10]

theorem datetime_c2_witness :
    (Datetime.mk 700000 5).addHours 100 = (Datetime.mk 700000 5).addTime 100 0 0 0 ∧
    (Datetime.mk 700000 5).addHours 24 = (Datetime.mk 700000 5).addDays 1 :=
  ⟨(datetime_c2_scalar_vs_interval (Datetime.mk 700000 5) 100 (by decide) (by decide)
      (by decide) (by decide) (by decide) (by decide) (by decide) (by decide)).1,
   (datetime_c2_scalar_vs_interval (Datetime.mk 700000 5) 100 (by decide) (by decide)
      (by decide) (by decide) (by decide) (by decide) (by decide) (by decide)).2.2.2.2.1⟩

/-- Claim C3 counterexample: the decomposition used by the scalar adders
is the C++ truncating modulus, so the remainder handed to the time part is
negative for the delta -1 -- it is not a floor-style modulus producing a
remainder in the range from 0 up to msPerDay; the adder still lands on the
correct instant because the time-part carry absorbs the negative
remainder. -/
theorem datetime_c3_counterexample :
    (msDecompose (-1)).2 = -1 ∧ ¬(0 ≤ (msDecompose (-1)).2) ∧
    (Datetime.mk 700000 0).addMilliseconds (-1) = ⟨699999, 86399999⟩ := by
  decide

/-- Claim C3 amended: the signed millisecond delta of each scalar adder is
decomposed with a truncation-style division: delta equals dayCount times
msPerDay plus remainder, the remainder has magnitude below msPerDay and
carries the sign of the delta (not always nonnegative), and feeding the
remainder to the time part with its day carry yields exactly the
combined-interval result, so the final value agrees with a floor-style
decomposition. -/
theorem datetime_c3_amended (delta : Int) :
    delta = (msDecompose delta).1 * msPerDay + (msDecompose delta).2 ∧
    -msPerDay < (msDecompose delta).2 ∧ (msDecompose delta).2 < msPerDay ∧
    (0 ≤ delta → 0 ≤ (msDecompose delta).2) ∧
    (delta ≤ 0 → (msDecompose delta).2 ≤ 0) ∧
    (∀ x : Datetime, x.addMilliseconds delta = x.addInterval delta) := by
  have hb := tmod_msPerDay_bounds delta
  have hid := Int.tdiv_add_tmod delta msPerDay
  refine ⟨?_, hb.1, hb.2.1, hb.2.2.1, hb.2.2.2,
          fun x => addMilliseconds_eq_addInterval x delta⟩
  unfold msDecompose
  simp only [msPerDay] at hid ⊢
  omega

theorem datetime_c3_amended_witness :
    0 ≤ (msDecompose 7).2 ∧ (msDecompose (-7)).2 ≤ 0 ∧
    (Datetime.mk 700000 5).addMilliseconds 7 = (Datetime.mk 700000 5).addInterval 7 :=
  ⟨(datetime_c3_amended 7).2.2.2.1 (by decide),
   (datetime_c3_amended (-7)).2.2.2.2.1 (by decide),
   (datetime_c3_amended 7).2.2.2.2.2 (Datetime.mk 700000 5)⟩

/-- Claim C4: for non-sentinel Datetime values a and b, subtraction and
addition are inverse: (a - b) + b = a and b + (a - b) = a, where a - b is
the whole-day date difference plus the signed time-of-day difference. -/
theorem datetime_c4_sub_add_inverse (a b : Datetime)
    (ha : a.Inv) (hb : b.Inv)
    (hna : a ≠ Datetime.mkDefault) (hnb : b ≠ Datetime.mkDefault) :
    intervalPlusDt (a.sub b) b = a ∧ dtPlusInterval b (a.sub b) = a := by
  obtain ⟨ad, ta⟩ := a
  obtain ⟨bd, tb⟩ := b
  have hta : ta ≠ time24 := nonSentinel_time_ne ha hna
  have hbx : timeOk ta := ha.1.2
  have htna : timeNorm ta = ta := by
    unfold timeNorm
    rw [if_neg hta]
  simp only [time24] at hta
  suffices h : Datetime.addInterval ⟨bd, tb⟩ (Datetime.sub ⟨ad, ta⟩ ⟨bd, tb⟩) = ⟨ad, ta⟩ by
    exact ⟨h, h⟩
  unfold Datetime.addInterval Time.addInterval Datetime.sub
  simp only [htna]
  rw [Datetime.mk.injEq]
  unfold timeOk time24 at hbx
  simp only [msPerDay]
  constructor <;> omega

theorem datetime_c4_witness :
    intervalPlusDt ((Datetime.mk 700001 8000).sub (Datetime.mk 700000 5)) (Datetime.mk 700000 5)
      = Datetime.mk 700001 8000 :=
  (datetime_c4_sub_add_inverse (Datetime.mk 700001 8000) (Datetime.mk 700000 5)
    (by decide) (by decide) (by decide) (by decide)).1

/-- Claim C6: for non-sentinel Datetime values the ordering operators are
a strict total order, lexicographic on (date, time): exactly one of a < b,
a == b, a > b holds, equality is field-wise value equality, and < is
transitive. -/
theorem datetime_c6_total_order (a b c : Datetime)
    (ha : a.d_time ≠ time24) (hb : b.d_time ≠ time24) (hc : c.d_time ≠ time24) :
    ((a.ltB b = true ∧ a.eqB b = false ∧ a.gtB b = false) ∨
     (a.ltB b = false ∧ a.eqB b = true ∧ a.gtB b = false) ∨
     (a.ltB b = false ∧ a.eqB b = false ∧ a.gtB b = true)) ∧
    (a.eqB b = true ↔ a = b) ∧
    (a.ltB b = true → b.ltB c = true → a.ltB c = true) := by
  obtain ⟨ad, ta⟩ := a
  obtain ⟨bd, tb⟩ := b
  obtain ⟨cd, tc⟩ := c
  simp only [Datetime.ltB, Datetime.eqB, Datetime.gtB, Bool.or_eq_true, Bool.and_eq_true,
             Bool.or_eq_false_iff, Bool.and_eq_false_iff, decide_eq_true_eq,
             decide_eq_false_iff_not, beq_iff_eq, beq_eq_false_iff_ne, ne_eq, not_lt,
             Datetime.mk.injEq]
  refine ⟨?_, by tauto, ?_⟩ <;> omega

theorem datetime_c6_witness :
    (Datetime.mk 5 0).ltB (Datetime.mk 5 3) = true ∧
    (Datetime.mk 5 0).ltB (Datetime.mk 6 0) = true :=
  ⟨by
    have h := (datetime_c6_total_order (Datetime.mk 5 0) (Datetime.mk 5 3) (Datetime.mk 6 0)
      (by decide) (by decide) (by decide)).1
    revert h
    decide,
   by
    have h := (datetime_c6_total_order (Datetime.mk 5 0) (Datetime.mk 5 3) (Datetime.mk 6 0)
      (by decide) (by decide) (by decide)).2.2
    exact h (by decide) (by decide)⟩

/-- Claim C7: the seven-field isValid returns true exactly when the
(year, month, day) triple is a valid proleptic Gregorian date, the
(hour, minute, second, millisecond) tuple is a valid time-of-day (hour 24
only with all other fields 0), and hour is not 24 unless the date is
exactly 0001/01/01; it is a pure total predicate. -/
theorem datetime_c7_isValid (y mo d h mi s ms : Int) :
    Datetime.isValid y mo d h mi s ms = true ↔
    ((1 ≤ y ∧ y ≤ 9999 ∧ 1 ≤ mo ∧ mo ≤ 12 ∧ 1 ≤ d ∧ d ≤ daysInMonth y mo) ∧
     ((0 ≤ h ∧ h ≤ 23 ∧ 0 ≤ mi ∧ mi ≤ 59 ∧ 0 ≤ s ∧ s ≤ 59 ∧ 0 ≤ ms ∧ ms ≤ 999) ∨
      (h = 24 ∧ mi = 0 ∧ s = 0 ∧ ms = 0)) ∧
     (h = 24 → y = 1 ∧ mo = 1 ∧ d = 1)) := by
  unfold Datetime.isValid Date.isValidYearMonthDay Time.isValid
  cases hD : decide (1 ≤ y ∧ y ≤ 9999 ∧ 1 ≤ mo ∧ mo ≤ 12 ∧ 1 ≤ d ∧ d ≤ daysInMonth y mo) <;>
    cases hT : decide (0 ≤ h ∧ h ≤ 23 ∧ 0 ≤ mi ∧ mi ≤ 59 ∧ 0 ≤ s ∧ s ≤ 59 ∧
                       0 ≤ ms ∧ ms ≤ 999 ∨ h = 24 ∧ mi = 0 ∧ s = 0 ∧ ms = 0) <;>
    simp only [decide_eq_false_iff_not, decide_eq_true_eq] at hD hT <;>
    simp [hD, hT] <;>
    tauto

theorem datetime_c7_witness :
    Datetime.isValid 2013 1 6 20 43 0 0 = true ∧
    Datetime.isValid 1 1 1 24 0 0 0 = true ∧
    Datetime.isValid 2013 1 6 24 0 0 0 = false :=
  ⟨(datetime_c7_isValid 2013 1 6 20 43 0 0).mpr (by decide),
   (datetime_c7_isValid 1 1 1 24 0 0 0).mpr (by decide),
   by decide⟩

/-- Claim C8: setDatetimeIfValid returns 0 exactly when the seven fields
satisfy isValid, in which case both parts are replaced by the requested
value; otherwise it returns a non-zero value and leaves the object exactly
unchanged. -/
theorem datetime_c8_setDatetimeIfValid (x : Datetime) (y mo d h mi s ms : Int) :
    ((x.setDatetimeIfValid y mo d h mi s ms).1 = 0 ↔
      Datetime.isValid y mo d h mi s ms = true) ∧
    (Datetime.isValid y mo d h mi s ms = true →
      (x.setDatetimeIfValid y mo d h mi s ms).2 =
        ⟨ymdToSerial y mo d, timeRep h mi s ms⟩) ∧
    (Datetime.isValid y mo d h mi s ms = false →
      (x.setDatetimeIfValid y mo d h mi s ms).1 ≠ 0 ∧
      (x.setDatetimeIfValid y mo d h mi s ms).2 = x) := by
  unfold Datetime.setDatetimeIfValid Datetime.setDatetime
  split <;> simp_all

theorem datetime_c8_witness :
    ((Datetime.mk 5 5).setDatetimeIfValid 2013 1 6 20 43 0 0).2 =
      ⟨ymdToSerial 2013 1 6, timeRep 20 43 0 0⟩ ∧
    ((Datetime.mk 5 5).setDatetimeIfValid 2013 2 30 0 0 0 0).2 = Datetime.mk 5 5 :=
  ⟨(datetime_c8_setDatetimeIfValid (Datetime.mk 5 5) 2013 1 6 20 43 0 0).2.1 (by decide),
   ((datetime_c8_setDatetimeIfValid (Datetime.mk 5 5) 2013 2 30 0 0 0 0).2.2 (by decide)).2⟩

/-- Claim C9: writing any Datetime with both parts in their valid ranges
(the sentinel included) at version 1 and reading the produced data back at
version 1 reproduces the value exactly and leaves the stream valid; the
version-1 format is the date sub-value immediately followed by the time
sub-value, with no version tag. -/
theorem datetime_c9_bdex_roundtrip (x y : Datetime) (hx : x.wfRep) :
    (y.bdexStreamIn 1 (x.bdexStreamOut 1 ⟨[], true⟩)).1 = x ∧
    (y.bdexStreamIn 1 (x.bdexStreamOut 1 ⟨[], true⟩)).2 = ⟨[], true⟩ ∧
    (x.bdexStreamOut 1 ⟨[], true⟩).data = [x.d_date, x.d_time] := by
  obtain ⟨dd, tt⟩ := x
  obtain ⟨⟨hd1, hd2⟩, ht1, ht2⟩ := hx
  simp only at hd1 hd2 ht1 ht2
  simp [Datetime.bdexStreamOut, Datetime.bdexStreamIn, Date.bdexStreamOut,
        Time.bdexStreamOut, Date.bdexStreamIn, Time.bdexStreamIn,
        hd1, hd2, ht1, ht2]

theorem datetime_c9_witness :
    (Datetime.mkDefault.bdexStreamIn 1 (Datetime.mkDefault.bdexStreamOut 1 ⟨[], true⟩)).1 =
      Datetime.mkDefault ∧
    ((Datetime.mk 5 5).bdexStreamIn 1 ((Datetime.mk 700000 12345).bdexStreamOut 1
      ⟨[], true⟩)).1 = Datetime.mk 700000 12345 :=
  ⟨(datetime_c9_bdex_roundtrip Datetime.mkDefault Datetime.mkDefault (by decide)).1,
   (datetime_c9_bdex_roundtrip (Datetime.mk 700000 12345) (Datetime.mk 5 5) (by decide)).1⟩

/-- Claim C10: if a version-1 read starts on a valid stream and the stream
ends up invalid (truncation or an out-of-range sub-value), the target
Datetime is left exactly unchanged: both sub-values go into temporaries
and are committed only when the stream is still valid after both reads. -/
theorem datetime_c10_streamIn_failure_atomic (x : Datetime) (s : BStream)
    (hs : s.valid = true) (hfail : (x.bdexStreamIn 1 s).2.valid = false) :
    (x.bdexStreamIn 1 s).1 = x := by
  unfold Datetime.bdexStreamIn at hfail ⊢
  rw [if_pos hs, if_pos rfl] at hfail ⊢
  by_cases hv : (Time.bdexStreamIn (Date.bdexStreamIn s).2).2.valid = true
  · rw [if_pos hv] at hfail
    simp only at hfail
    rw [hv] at hfail
    cases hfail
  · rw [if_neg hv]

theorem datetime_c10_witness :
    ((Datetime.mk 700000 12345).bdexStreamIn 1 ⟨[5], true⟩).1 = Datetime.mk 700000 12345 :=
  datetime_c10_streamIn_failure_atomic (Datetime.mk 700000 12345) ⟨[5], true⟩
    (by decide) (by decide)

/-- Claim C5 counterexample: starting from the default value, setTime with
the reserved time value (a call the contract allows, since the date is the
default date) leaves the reserved 24:00:00.000 in place, and setMinute 30
yields 00:30:00.000, not 00:00:00.000 -- so it is not the case that every
setter other than setHour 24 yields a value whose time-of-day is
00:00:00.000 and never the reserved value. -/
theorem datetime_c5_counterexample :
    Datetime.isValidDT Datetime.mkDefault.d_date time24 = true ∧
    (Datetime.mkDefault.setTimePart time24).d_time = time24 ∧
    (Datetime.mkDefault.setMinute 30).d_time = 30 * msPerMinute ∧
    (Datetime.mkDefault.setMinute 30).d_time ≠ 0 := by
  decide

/-- Claim C5 amended: starting from the default value, the date setters
(setDate, setYearDay, setYearMonthDay) and addDays yield a time part of
exactly 00:00:00.000; the single-field time setters yield the non-reserved
time with only the requested field set (the reserved hour being replaced
by 0 first), for setHour when the argument is not 24; setTime and
setDatetime produce the reserved value only when it is explicitly
requested; and the normalization helper rewrites the time to 00:00:00.000
exactly when the current value is the sentinel, before the mutation is
applied. -/
theorem datetime_c5_amended :
    (∀ d : Int, (Datetime.mkDefault.setDate d).d_time = 0) ∧
    (∀ y doy : Int, (Datetime.mkDefault.setYearDay y doy).d_time = 0) ∧
    (∀ y mo d : Int, (Datetime.mkDefault.setYearMonthDay y mo d).d_time = 0) ∧
    (∀ n : Int, (Datetime.mkDefault.addDays n).d_time = 0) ∧
    (∀ h : Int, 0 ≤ h → h ≤ 23 →
      (Datetime.mkDefault.setHour h).d_time = h * msPerHour ∧
      (Datetime.mkDefault.setHour h).d_time ≠ time24) ∧
    (∀ mi : Int, 0 ≤ mi → mi ≤ 59 →
      (Datetime.mkDefault.setMinute mi).d_time = mi * msPerMinute ∧
      (Datetime.mkDefault.setMinute mi).d_time ≠ time24) ∧
    (∀ s : Int, 0 ≤ s → s ≤ 59 →
      (Datetime.mkDefault.setSecond s).d_time = s * msPerSecond ∧
      (Datetime.mkDefault.setSecond s).d_time ≠ time24) ∧
    (∀ ms : Int, 0 ≤ ms → ms ≤ 999 →
      (Datetime.mkDefault.setMillisecond ms).d_time = ms ∧
      (Datetime.mkDefault.setMillisecond ms).d_time ≠ time24) ∧
    (∀ t : Int, timeOk t → t ≠ time24 →
      (Datetime.mkDefault.setTimePart t).d_time = t ∧
      (Datetime.mkDefault.setTimePart t).d_time ≠ time24) ∧
    (∀ h mi s ms : Int, Time.isValid h mi s ms = true → h ≠ 24 →
      (Datetime.mkDefault.setTimeFields h mi s ms).d_time ≠ time24) ∧
    (∀ y mo d h mi s ms : Int, Datetime.isValid y mo d h mi s ms = true → h ≠ 24 →
      (Datetime.mkDefault.setDatetime y mo d h mi s ms).d_time ≠ time24) ∧
    (∀ x : Datetime, x ≠ Datetime.mkDefault → x.setTimeToZeroIfDefault = x) ∧
    Datetime.mkDefault.setTimeToZeroIfDefault = ⟨1, 0⟩ := by
  have hT24 : timeNorm time24 = 0 := by
    unfold timeNorm
    rw [if_pos rfl]
  refine ⟨?_, ?_, ?_, ?_, ?_, ?_, ?_, ?_, ?_, ?_, ?_, ?_, ?_⟩
  · intro d
    simp [Datetime.setDate, Datetime.setTimeToZeroIfDefault, Datetime.mkDefault]
  · intro y doy
    simp [Datetime.setYearDay, Datetime.setTimeToZeroIfDefault, Datetime.mkDefault]
  · intro y mo d
    simp [Datetime.setYearMonthDay, Datetime.setTimeToZeroIfDefault, Datetime.mkDefault]
  · intro n
    simp [Datetime.addDays, Datetime.setTimeToZeroIfDefault, Datetime.mkDefault]
  · intro h h0 h23
    have hne : h ≠ 24 := by omega
    simp only [Datetime.setHour, Time.setHour, Datetime.mkDefault, hT24, if_neg hne]
    norm_num
    simp only [msPerHour, time24]
    omega
  · intro mi h0 h59
    simp only [Datetime.setMinute, Time.setMinute, Datetime.mkDefault, hT24]
    norm_num
    simp only [msPerMinute, time24]
    omega
  · intro s h0 h59
    simp only [Datetime.setSecond, Time.setSecond, Datetime.mkDefault, hT24]
    norm_num
    simp only [msPerSecond, time24]
    omega
  · intro ms h0 h999
    simp only [Datetime.setMillisecond, Time.setMillisecond, Datetime.mkDefault, hT24]
    norm_num
    simp only [time24]
    omega
  · intro t ht htne
    exact ⟨rfl, htne⟩
  · intro h mi s ms hv hne
    intro heq
    exact hne ((timeRep_ok hv).2.2 heq)
  · intro y mo d h mi s ms hv hne
    intro heq
    have hv2 : Time.isValid h mi s ms = true := by
      unfold Datetime.isValid at hv
      cases hP : (Date.isValidYearMonthDay y mo d && Time.isValid h mi s ms)
      · rw [hP] at hv
        simp at hv
      · simp only [Bool.and_eq_true] at hP
        exact hP.2
    exact hne ((timeRep_ok hv2).2.2 heq)
  · intro x hx
    unfold Datetime.setTimeToZeroIfDefault
    rw [if_neg]
    intro hcond
    apply hx
    obtain ⟨dd, tt⟩ := x
    simp only at hcond
    simp [Datetime.mkDefault, hcond.1, hcond.2]
  · simp [Datetime.setTimeToZeroIfDefault, Datetime.mkDefault]

theorem datetime_c5_amended_witness :
    (Datetime.mkDefault.setDate 40000).d_time = 0 ∧
    (Datetime.mkDefault.setMinute 30).d_time = 30 * msPerMinute ∧
    (Datetime.mk 5 5).setTimeToZeroIfDefault = Datetime.mk 5 5 :=
  ⟨datetime_c5_amended.1 40000,
   (datetime_c5_amended.2.2.2.2.2.1 30 (by decide) (by decide)).1,
   datetime_c5_amended.2.2.2.2.2.2.2.2.2.2.2.1 (Datetime.mk 5 5) (by decide)⟩

lemma Inv_mk_of_le {dd tt : Int} (hd : dateOk dd) (h0 : 0 ≤ tt) (hle : tt ≤ time24)
    (himp : tt = time24 → dd = 1) : (Datetime.mk dd tt).Inv :=
  ⟨⟨hd, h0, hle⟩, himp⟩

lemma isValid_parts {y mo d h mi s ms : Int}
    (hv : Datetime.isValid y mo d h mi s ms = true) :
    Date.isValidYearMonthDay y mo d = true ∧ Time.isValid h mi s ms = true ∧
    (h = 24 → y = 1 ∧ mo = 1 ∧ d = 1) := by
  unfold Datetime.isValid at hv
  cases hP : (Date.isValidYearMonthDay y mo d && Time.isValid h mi s ms)
  · rw [hP] at hv
    simp at hv
  · rw [hP] at hv
    simp only [Bool.and_eq_true] at hP
    refine ⟨hP.1, hP.2, ?_⟩
    intro h24
    by_contra hne
    simp [h24] at hv
    exact hne ⟨hv.1.1, hv.1.2, hv.2⟩

lemma isValidDT_imp {d t : Int} (h : Datetime.isValidDT d t = true) :
    t = time24 → d = 1 := by
  intro he
  by_contra hne
  simp [Datetime.isValidDT, he, hne] at h

lemma setDatetime_Inv {y mo d h mi s ms : Int}
    (hv : Datetime.isValid y mo d h mi s ms = true) :
    (Datetime.mk (ymdToSerial y mo d) (timeRep h mi s ms)).Inv := by
  obtain ⟨hD, hT, hI⟩ := isValid_parts hv
  have hs := ymdToSerial_bounds hD
  have ht := timeRep_ok hT
  refine Inv_mk_of_le ⟨hs.1, hs.2⟩ ht.1 ht.2.1 ?_
  intro he
  obtain ⟨hy, hm, hd⟩ := hI (ht.2.2 he)
  rw [hy, hm, hd]
  decide

/-- Claim C1: the cross-field invariant I1 holds for every Datetime value
reachable through the public contract: the default value, each constructor
and setter under its documented precondition, all the carry-propagating
arithmetic whose resulting date stays in range, the interval operators,
and version-1 stream-in (of a stream produced by stream-out of a valid
value, or on any failed read). -/
theorem datetime_c1_invariant :
    Datetime.mkDefault.Inv ∧
    (∀ d : Int, dateOk d → (Datetime.fromDate d).Inv) ∧
    (∀ d t : Int, dateOk d → timeOk t → Datetime.isValidDT d t = true →
      (Datetime.fromDateAndTime d t).Inv) ∧
    (∀ y mo d h mi s ms : Int, Datetime.isValid y mo d h mi s ms = true →
      (Datetime.fromFields y mo d h mi s ms).Inv) ∧
    (∀ (x : Datetime) (y mo d h mi s ms : Int),
      Datetime.isValid y mo d h mi s ms = true →
      (x.setDatetime y mo d h mi s ms).Inv) ∧
    (∀ (x : Datetime) (y mo d h mi s ms : Int), x.Inv →
      ((x.setDatetimeIfValid y mo d h mi s ms).2).Inv) ∧
    (∀ (x : Datetime) (d : Int), x.Inv → dateOk d → (x.setDate d).Inv) ∧
    (∀ (x : Datetime) (y doy : Int), x.Inv → Date.isValidYearDay y doy = true →
      (x.setYearDay y doy).Inv) ∧
    (∀ (x : Datetime) (y mo d : Int), x.Inv → Date.isValidYearMonthDay y mo d = true →
      (x.setYearMonthDay y mo d).Inv) ∧
    (∀ (x : Datetime) (t : Int), x.Inv → timeOk t → Datetime.isValidDT x.d_date t = true →
      (x.setTimePart t).Inv) ∧
    (∀ (x : Datetime) (h mi s ms : Int), x.Inv → Time.isValid h mi s ms = true →
      (h = 24 → x.d_date = 1) → (x.setTimeFields h mi s ms).Inv) ∧
    (∀ (x : Datetime) (h : Int), x.Inv → 0 ≤ h → h ≤ 24 → (h = 24 → x.d_date = 1) →
      (x.setHour h).Inv) ∧
    (∀ (x : Datetime) (mi : Int), x.Inv → 0 ≤ mi → mi ≤ 59 → (x.setMinute mi).Inv) ∧
    (∀ (x : Datetime) (s : Int), x.Inv → 0 ≤ s → s ≤ 59 → (x.setSecond s).Inv) ∧
    (∀ (x : Datetime) (ms : Int), x.Inv → 0 ≤ ms → ms ≤ 999 → (x.setMillisecond ms).Inv) ∧
    (∀ (x : Datetime) (n : Int), x.Inv → dateOk ((x.addDays n).d_date) →
      (x.addDays n).Inv) ∧
    (∀ (x : Datetime) (delta : Int), x.Inv → dateOk ((x.addInterval delta).d_date) →
      (x.addInterval delta).Inv) ∧
    (∀ (x : Datetime) (delta : Int), x.Inv → dateOk ((x.subInterval delta).d_date) →
      (x.subInterval delta).Inv) ∧
    (∀ (x : Datetime) (h mi s ms : Int), x.Inv → dateOk ((x.addTime h mi s ms).d_date) →
      (x.addTime h mi s ms).Inv) ∧
    (∀ (x : Datetime) (n : Int), x.Inv → dateOk ((x.addHours n).d_date) →
      (x.addHours n).Inv) ∧
    (∀ (x : Datetime) (n : Int), x.Inv → dateOk ((x.addMinutes n).d_date) →
      (x.addMinutes n).Inv) ∧
    (∀ (x : Datetime) (n : Int), x.Inv → dateOk ((x.addSeconds n).d_date) →
      (x.addSeconds n).Inv) ∧
    (∀ (x : Datetime) (n : Int), x.Inv → dateOk ((x.addMilliseconds n).d_date) →
      (x.addMilliseconds n).Inv) ∧
    (∀ (x y : Datetime) (v : Int), x.Inv → y.Inv →
      ((x.bdexStreamIn v (y.bdexStreamOut v ⟨[], true⟩)).1).Inv) ∧
    (∀ (x : Datetime) (s : BStream) (v : Int), x.Inv →
      (x.bdexStreamIn v s).2.valid = false → ((x.bdexStreamIn v s).1).Inv) := by
  refine ⟨by decide, ?_, ?_, ?_, ?_, ?_, ?_, ?_, ?_, ?_, ?_, ?_, ?_, ?_, ?_, ?_, ?_, ?_,
          ?_, ?_, ?_, ?_, ?_, ?_, ?_⟩
  · intro d hd
    exact Inv_mk_of_lt hd le_rfl (by norm_num [time24])
  · intro d t hd ht hdt
    exact Inv_mk_of_le hd ht.1 ht.2 (isValidDT_imp hdt)
  · intro y mo d h mi s ms hv
    exact setDatetime_Inv hv
  · intro x y mo d h mi s ms hv
    exact setDatetime_Inv hv
  · intro x y mo d h mi s ms hInv
    unfold Datetime.setDatetimeIfValid
    split
    · next hc => exact setDatetime_Inv hc
    · exact hInv
  · intro x d hInv hd
    have hn := norm_preserves hInv
    exact Inv_mk_of_lt hd hn.2.1 hn.2.2
  · intro x y doy hInv hv
    have hs := ydToSerial_bounds hv
    have hn := norm_preserves hInv
    exact Inv_mk_of_lt ⟨hs.1, hs.2⟩ hn.2.1 hn.2.2
  · intro x y mo d hInv hv
    have hs := ymdToSerial_bounds hv
    have hn := norm_preserves hInv
    exact Inv_mk_of_lt ⟨hs.1, hs.2⟩ hn.2.1 hn.2.2
  · intro x t hInv ht hdt
    exact Inv_mk_of_le hInv.1.1 ht.1 ht.2 (isValidDT_imp hdt)
  · intro x h mi s ms hInv hv himp
    have ht := timeRep_ok hv
    exact Inv_mk_of_le hInv.1.1 ht.1 ht.2.1 (fun he => himp (ht.2.2 he))
  · intro x h hInv h0 h24 himp
    unfold Datetime.setHour Time.setHour
    by_cases he : h = 24
    · rw [if_pos he]
      exact Inv_mk_of_le hInv.1.1 (by norm_num [time24]) le_rfl (fun _ => himp he)
    · rw [if_neg he]
      refine Inv_mk_of_lt hInv.1.1 ?_ ?_ <;>
        · simp only [msPerHour, time24]
          omega
  · intro x mi hInv h0 h59
    have hb := timeNorm_bounds hInv.1.2
    unfold Datetime.setMinute Time.setMinute
    refine Inv_mk_of_lt hInv.1.1 ?_ ?_ <;>
      · simp only [msPerHour, msPerMinute, msPerDay, time24] at hb ⊢
        omega
  · intro x s hInv h0 h59
    have hb := timeNorm_bounds hInv.1.2
    unfold Datetime.setSecond Time.setSecond
    refine Inv_mk_of_lt hInv.1.1 ?_ ?_ <;>
      · simp only [msPerMinute, msPerSecond, msPerDay, time24] at hb ⊢
        omega
  · intro x ms hInv h0 h999
    have hb := timeNorm_bounds hInv.1.2
    unfold Datetime.setMillisecond Time.setMillisecond
    refine Inv_mk_of_lt hInv.1.1 ?_ ?_ <;>
      · simp only [msPerSecond, msPerDay, time24] at hb ⊢
        omega
  · intro x n hInv hdok
    have hn := norm_preserves hInv
    exact Inv_mk_of_lt hdok hn.2.1 hn.2.2
  · intro x delta hInv hdok
    have ht := addInterval_time_ok x.d_time delta
    exact Inv_mk_of_lt hdok ht.1 ht.2
  · intro x delta hInv hdok
    have ht := addInterval_time_ok x.d_time (-delta)
    exact Inv_mk_of_lt hdok ht.1 ht.2
  · intro x h mi s ms hInv hdok
    have ht := addInterval_time_ok x.d_time
      (h * msPerHour + mi * msPerMinute + s * msPerSecond + ms)
    exact Inv_mk_of_lt hdok ht.1 ht.2
  · intro x n hInv hdok
    rw [addHours_eq_addInterval] at hdok ⊢
    have ht := addInterval_time_ok x.d_time (n * msPerHour)
    exact Inv_mk_of_lt hdok ht.1 ht.2
  · intro x n hInv hdok
    rw [addMinutes_eq_addInterval] at hdok ⊢
    have ht := addInterval_time_ok x.d_time (n * msPerMinute)
    exact Inv_mk_of_lt hdok ht.1 ht.2
  · intro x n hInv hdok
    rw [addSeconds_eq_addInterval] at hdok ⊢
    have ht := addInterval_time_ok x.d_time (n * msPerSecond)
    exact Inv_mk_of_lt hdok ht.1 ht.2
  · intro x n hInv hdok
    rw [addMilliseconds_eq_addInterval] at hdok ⊢
    have ht := addInterval_time_ok x.d_time n
    exact Inv_mk_of_lt hdok ht.1 ht.2
  · intro x y v hInv hInvY
    by_cases hv : v = 1
    · subst hv
      obtain ⟨⟨hd1, hd2⟩, ht1, ht2⟩ := hInvY.1
      have hres : (x.bdexStreamIn 1 (y.bdexStreamOut 1 ⟨[], true⟩)).1 =
          ⟨y.d_date, y.d_time⟩ := by
        simp [Datetime.bdexStreamOut, Datetime.bdexStreamIn, Date.bdexStreamOut,
              Time.bdexStreamOut, Date.bdexStreamIn, Time.bdexStreamIn, hd1, hd2, ht1, ht2]
      rw [hres]
      exact hInvY
    · have hres : (x.bdexStreamIn v (y.bdexStreamOut v ⟨[], true⟩)).1 = x := by
        simp [Datetime.bdexStreamOut, Datetime.bdexStreamIn, BStream.invalidate, hv]
      rw [hres]
      exact hInv
  · intro x s v hInv hfail
    unfold Datetime.bdexStreamIn at hfail ⊢
    by_cases hsv : s.valid = true
    · rw [if_pos hsv] at hfail ⊢
      by_cases hv : v = 1
      · rw [if_pos hv] at hfail ⊢
        by_cases hc : (Time.bdexStreamIn (Date.bdexStreamIn s).2).2.valid = true
        · rw [if_pos hc] at hfail
          simp only at hfail
          rw [hc] at hfail
          cases hfail
        · rw [if_neg hc]
          exact hInv
      · rw [if_neg hv]
        exact hInv
    · rw [if_neg hsv]
      exact hInv

theorem datetime_c1_witness :
    (Datetime.fromDate 700000).Inv ∧
    ((Datetime.mk 700000 5).setMinute 30).Inv ∧
    ((Datetime.mk 700000 5).addHours 100).Inv := by
  obtain ⟨h1, h2, h3, h4, h5, h6, h7, h8, h9, h10, h11, h12, h13, h14, h15, h16, h17,
          h18, h19, h20, h21, h22, h23, h24, h25⟩ := datetime_c1_invariant
  exact ⟨h2 700000 (by decide),
         h13 (Datetime.mk 700000 5) 30 (by decide) (by decide) (by decide),
         h20 (Datetime.mk 700000 5) 100 (by decide) (by decide)⟩
